import Mathlib

/-!
Shallow embedding of the investor-agent scoring-and-promotion engine:
`app/scoring.py` (InvestmentScorer), `app/metrics.py` (MetricsCalculator's
CAGR), and `app/writers/sheets_writer.py` (SheetsWriter promotion
reconciler).  Python floats are modelled as rationals, Python `None` as
`Option`, Python dictionaries as structures of optional fields, and the
spreadsheet store as an explicit `LedgerState` record threaded through the
reconciler.
-/

namespace InvestorAgent

/-- Python `round(x)`: round half to even, returning an integer. -/
def pyRound (q : ℚ) : ℤ :=
  let f := ⌊q⌋
  let frac := q - f
  if frac < 1/2 then f
  else if 1/2 < frac then f + 1
  else if f % 2 = 0 then f else f + 1

/-- Python `round(x, 2)`: round half to even at two decimal places. -/
def round2 (q : ℚ) : ℚ := (pyRound (q * 100) : ℚ) / 100

/-- Python `a or b` on two optional numbers: `None` and `0` are falsy. -/
def pyOrQ (a b : Option ℚ) : Option ℚ :=
  match a with
  | some x => if x = 0 then b else some x
  | none => b

/-- Python `a or b` where `a` is an optional string and `b` a string:
`None` and the empty string are falsy. -/
def pyOrStr (a : Option String) (b : String) : String :=
  match a with
  | some s => if s = "" then b else s
  | none => b

/-! ## Scorer (`app/scoring.py`) -/

/-- The `profitability` metrics sub-group as read by the scorer. -/
structure ProfitabilityGroup where
  net_margin : Option ℚ
  roe : Option ℚ
  gross_margin : Option ℚ
  deriving DecidableEq, Repr

/-- The `growth` metrics sub-group as read by the scorer. -/
structure GrowthGroup where
  revenue_growth : Option ℚ
  earnings_growth : Option ℚ
  deriving DecidableEq, Repr

/-- The `value` metrics sub-group as read by the scorer. -/
structure ValueGroup where
  pe_r : Option ℚ
  pb_r : Option ℚ
  price_to_sales : Option ℚ
  deriving DecidableEq, Repr

/-- The `quality` metrics sub-group as read by the scorer. -/
structure QualityGroup where
  debt_to_equity : Option ℚ
  cash_flow_to_net_income : Option ℚ
  free_cash_flow : Option ℚ
  deriving DecidableEq, Repr

/-- The `financial_health` metrics sub-group as read by the scorer. -/
structure HealthGroup where
  current_r : Option ℚ
  quick_r : Option ℚ
  interest_coverage : Option ℚ
  deriving DecidableEq, Repr

/-- The metrics dictionary consumed by `InvestmentScorer.score`.  A
sub-group equal to `none` models an empty (falsy) dictionary `{}`;
`some g` models a populated dictionary whose individual keys may still be
absent. -/
structure ScoringMetrics where
  profitability : Option ProfitabilityGroup
  growth : Option GrowthGroup
  value : Option ValueGroup
  quality : Option QualityGroup
  financial_health : Option HealthGroup
  moat_score : Option ℚ
  risk_flags : Option (List String)
  thesis_broken : Bool
  deriving DecidableEq, Repr

/-- `InvestmentScorer._score_profitability`. -/
def scoreProfitability (g : Option ProfitabilityGroup) : ℚ :=
  match g with
  | none => 0
  | some p =>
    let s1 : ℚ :=
      let nm := p.net_margin.getD 0
      if 20 < nm then 30 else if 10 < nm then 20 else if 5 < nm then 10 else 0
    let s2 : ℚ :=
      let roe := p.roe.getD 0
      if 20 < roe then 40 else if 15 < roe then 30 else if 10 < roe then 20 else 0
    let s3 : ℚ :=
      let gm := p.gross_margin.getD 0
      if 50 < gm then 30 else if 30 < gm then 20 else if 20 < gm then 10 else 0
    min (s1 + s2 + s3) 100

/-- `InvestmentScorer._score_growth`. -/
def scoreGrowth (g : Option GrowthGroup) : ℚ :=
  match g with
  | none => 0
  | some gr =>
    let s1 : ℚ :=
      let rg := gr.revenue_growth.getD 0
      if 20 < rg then 50 else if 10 < rg then 35 else if 5 < rg then 20
      else if 0 < rg then 10 else 0
    let s2 : ℚ :=
      let eg := gr.earnings_growth.getD 0
      if 20 < eg then 50 else if 10 < eg then 35 else if 5 < eg then 20
      else if 0 < eg then 10 else 0
    min (s1 + s2) 100

/-- `InvestmentScorer._score_value`. -/
def scoreValue (g : Option ValueGroup) : ℚ :=
  match g with
  | none => 0
  | some v =>
    let s1 : ℚ :=
      let pe := v.pe_r.getD 0
      if 0 < pe ∧ pe < 15 then 50 else if 15 ≤ pe ∧ pe < 25 then 35
      else if 25 ≤ pe ∧ pe < 35 then 20 else if 35 ≤ pe then 10 else 0
    let s2 : ℚ :=
      let pb := v.pb_r.getD 0
      if 0 < pb ∧ pb < 2 then 30 else if 2 ≤ pb ∧ pb < 4 then 20
      else if 4 ≤ pb ∧ pb < 6 then 10 else 0
    let s3 : ℚ :=
      let ps := v.price_to_sales.getD 0
      if 0 < ps ∧ ps < 2 then 20 else if 2 ≤ ps ∧ ps < 4 then 10 else 0
    min (s1 + s2 + s3) 100

/-- `InvestmentScorer._score_quality`. -/
def scoreQuality (g : Option QualityGroup) : ℚ :=
  match g with
  | none => 0
  | some q =>
    let s1 : ℚ :=
      let de := q.debt_to_equity.getD 0
      if de < 1/2 then 40 else if de < 1 then 30 else if de < 2 then 15 else 0
    let s2 : ℚ :=
      let cf := q.cash_flow_to_net_income.getD 0
      if 6/5 < cf then 40 else if 1 < cf then 30 else if 4/5 < cf then 20 else 0
    let s3 : ℚ :=
      let fcf := q.free_cash_flow.getD 0
      if 0 < fcf then 20 else 0
    min (s1 + s2 + s3) 100

/-- `InvestmentScorer._score_financial_health`. -/
def scoreFinancialHealth (g : Option HealthGroup) : ℚ :=
  match g with
  | none => 0
  | some h =>
    let s1 : ℚ :=
      let cr := h.current_r.getD 0
      if 2 < cr then 40 else if 3/2 < cr then 30 else if 1 < cr then 20 else 0
    let s2 : ℚ :=
      let qr := h.quick_r.getD 0
      if 3/2 < qr then 30 else if 1 < qr then 20 else if 3/4 < qr then 10 else 0
    let s3 : ℚ :=
      let ic := h.interest_coverage.getD 0
      if 10 < ic then 30 else if 5 < ic then 20 else if 2 < ic then 10 else 0
    min (s1 + s2 + s3) 100

/-- `InvestmentScorer._identify_strengths`. -/
def identifyStrengths (m : ScoringMetrics) : List String :=
  let l1 :=
    match m.profitability with
    | none => []
    | some p =>
      (if 20 < p.roe.getD 0 then ["Exceptional return on equity (>20%)"] else []) ++
      (if 15 < p.net_margin.getD 0 then ["Strong profit margins"] else [])
  let l2 :=
    match m.growth with
    | none => []
    | some g => if 15 < g.revenue_growth.getD 0 then ["High revenue growth rate"] else []
  let l3 :=
    match m.quality with
    | none => []
    | some q =>
      (match q.debt_to_equity with
       | some de => if de < 1/2 then ["Low debt levels"] else []
       | none => []) ++
      (if 6/5 < q.cash_flow_to_net_income.getD 0 then ["Excellent cash flow generation"] else [])
  let l4 :=
    match m.financial_health with
    | none => []
    | some h => if 2 < h.current_r.getD 0 then ["Strong liquidity position"] else []
  l1 ++ l2 ++ l3 ++ l4

/-- `InvestmentScorer._identify_concerns`. -/
def identifyConcerns (m : ScoringMetrics) : List String :=
  let l1 :=
    match m.profitability with
    | none => []
    | some p => if p.net_margin.getD 0 < 0 then ["Company is not profitable"] else []
  let l2 :=
    match m.growth with
    | none => []
    | some g => if g.revenue_growth.getD 0 < 0 then ["Declining revenues"] else []
  let l3 :=
    match m.quality with
    | none => []
    | some q =>
      (if 2 < q.debt_to_equity.getD 0 then ["High debt levels relative to equity"] else []) ++
      (if q.free_cash_flow.getD 0 < 0 then ["Negative free cash flow"] else [])
  let l4 :=
    match m.financial_health with
    | none => []
    | some h => if h.current_r.getD 0 < 1 then ["Liquidity concerns (current ratio < 1.0)"] else []
  let l5 :=
    match m.value with
    | none => []
    | some v => if 50 < v.pe_r.getD 0 then ["High valuation (P/E > 50)"] else []
  l1 ++ l2 ++ l3 ++ l4 ++ l5

/-- `InvestmentScorer._estimate_moat_score`.  The explicit branch returns
`round(explicit)` with no clamping; only the estimated branch clamps. -/
def estimateMoatScore (m : ScoringMetrics) (profitabilityScore qualityScore : ℚ) : ℤ :=
  match m.moat_score with
  | some explicit => pyRound explicit
  | none =>
    let estimated := (profitabilityScore + qualityScore) / 20
    max 0 (min 10 (pyRound estimated))

/-- `InvestmentScorer._derive_risk_flags`. -/
def deriveRiskFlags (m : ScoringMetrics) : List String :=
  match m.risk_flags with
  | some flags => flags
  | none => identifyConcerns m

/-- `InvestmentScorer.get_recommendation`, applied to the resolved total
score. -/
def getRecommendation (totalScore : ℚ) : String :=
  if 80 ≤ totalScore then "STRONG BUY - Excellent investment opportunity"
  else if 70 ≤ totalScore then "BUY - Good investment with solid fundamentals"
  else if 60 ≤ totalScore then "HOLD - Acceptable investment, monitor closely"
  else if 50 ≤ totalScore then "CAUTIOUS - Weak fundamentals, consider alternatives"
  else "AVOID - Poor investment metrics"

/-- The payload produced by `InvestmentScorer.score`. -/
structure ScorePayload where
  total : ℚ
  total_score : ℚ
  moat_score : ℤ
  risk_flags : List String
  thesis_broken : Bool
  sub_profitability : ℚ
  sub_growth : ℚ
  sub_value : ℚ
  sub_quality : ℚ
  sub_financial_health : ℚ
  strengths : List String
  concerns : List String
  decision : String
  deriving DecidableEq, Repr

/-- Scoring weights of `InvestmentScorer.WEIGHTS`. -/
def wProfitability : ℚ := 1/4
def wGrowth : ℚ := 1/5
def wValue : ℚ := 1/5
def wQuality : ℚ := 1/5
def wFinancialHealth : ℚ := 3/20

/-- `InvestmentScorer.score`. -/
def score (m : ScoringMetrics) : ScorePayload :=
  let p := scoreProfitability m.profitability
  let g := scoreGrowth m.growth
  let v := scoreValue m.value
  let q := scoreQuality m.quality
  let h := scoreFinancialHealth m.financial_health
  let totalScore := p * wProfitability + g * wGrowth + v * wValue +
    q * wQuality + h * wFinancialHealth
  { total := round2 totalScore
    total_score := round2 totalScore
    moat_score := estimateMoatScore m p q
    risk_flags := deriveRiskFlags m
    thesis_broken := m.thesis_broken
    sub_profitability := round2 p
    sub_growth := round2 g
    sub_value := round2 v
    sub_quality := round2 q
    sub_financial_health := round2 h
    strengths := identifyStrengths m
    concerns := identifyConcerns m
    decision := getRecommendation (round2 totalScore) }

/-! ## Metrics: trailing CAGR (`app/metrics.py`, `_calculate_cagr`) -/

/-- `MetricsCalculator._calculate_cagr`.  Input values come newest first;
the float power `(end/begin) ** (1/n)` is modelled as the real power. -/
noncomputable def calculateCagr (values : List ℚ) : ℝ :=
  if values.length < 2 then 0
  else
    let positiveValues := values.filter (fun v => 0 < v)
    if positiveValues.length < 2 then 0
    else
      let endingValue := positiveValues.headD 0
      let beginningValue := positiveValues.getLastD 0
      let n : ℕ := positiveValues.length - 1
      if beginningValue = 0 then 0
      else (((endingValue / beginningValue : ℚ) : ℝ) ^ ((1 : ℝ) / (n : ℝ)) - 1) * 100

/-! ## Promotion reconciler (`app/writers/sheets_writer.py`) -/

/-- A spreadsheet cell value as written by the reconciler: a string, a
number, or Python `None`. -/
inductive Cell where
  | str : String → Cell
  | num : ℚ → Cell
  | null : Cell
  deriving DecidableEq, Repr

/-- A number-or-empty-string cell (`x if x is not None else ""`). -/
def cellOfQ (o : Option ℚ) : Cell :=
  match o with
  | some q => Cell.num q
  | none => Cell.str ""

/-- A number-or-None cell (the promotion-log score column). -/
def cellOfQNull (o : Option ℚ) : Cell :=
  match o with
  | some q => Cell.num q
  | none => Cell.null

/-- The writer-relevant configuration fields read off `Config`. -/
structure WriterConfig where
  spreadsheet_id : String
  dashboard_tab : String
  promo_log_tab : String
  block_start : ℕ
  block_end : ℕ
  promote_score_threshold : ℚ
  high_priority_threshold : ℚ
  moat_gate_threshold : ℚ
  min_fcf_positive : Bool
  roic_gate_above_sector_median : Bool
  max_risk_flag_count : ℕ
  max_net_debt_to_ebitda : ℚ
  require_thesis_not_broken : Bool
  deriving DecidableEq, Repr

/-- The `score` dictionary of a results payload as read by the writer. -/
structure ScoreDict where
  total : Option ℚ
  total_score : Option ℚ
  moat_score : Option ℚ
  thesis_broken : Bool
  risk_flags : Option (List String)
  deriving DecidableEq, Repr

/-- The `quality` sub-dictionary of the writer's metrics. -/
structure WQuality where
  free_cash_flow : Option ℚ
  net_debt_to_ebitda : Option ℚ
  debt_to_ebitda : Option ℚ
  deriving DecidableEq, Repr

/-- The `metrics` dictionary of a results payload as read by the writer.
`profitability_roic` stands for `metrics.get("profitability", {}).get("roic")`. -/
structure WMetrics where
  price : Option ℚ
  year_high : Option ℚ
  drawdown_pct : Option ℚ
  roic : Option ℚ
  roic_above_sector_median : Bool
  net_debt_to_ebitda : Option ℚ
  profitability_roic : Option ℚ
  quality : WQuality
  deriving DecidableEq, Repr

/-- The results payload handed to `SheetsWriter.write`. -/
structure Results where
  ticker : Option String
  company_name : Option String
  recommendation : Option String
  current_price : Option ℚ
  year_high : Option ℚ
  last_updated : Option String
  score : ScoreDict
  metrics : WMetrics
  deriving DecidableEq, Repr

/-- The observable ledger-store state the reconciler reads and writes:
worksheet titles, the dashboard block's column-A read result (one list per
row, empty list for a blank cell), the dashboard E:J writes (latest
first), the appended promotion-log rows, and the log header row. -/
structure LedgerState where
  tabs : List String
  blockA : List (List String)
  rowsEJ : List (ℕ × List Cell)
  promoLog : List (List Cell)
  logHeader : Option (List String)
  deriving DecidableEq, Repr

/-- Current E:J content of a dashboard row (latest write wins). -/
def getRowEJ (st : LedgerState) (rowIndex : ℕ) : Option (List Cell) :=
  (st.rowsEJ.find? (fun p => p.1 == rowIndex)).map Prod.snd

/-- Python `str.strip()`: drop leading and trailing whitespace, modelled
structurally over the character list. -/
def pyStrip (s : String) : String :=
  String.mk (((s.data.dropWhile Char.isWhitespace).reverse.dropWhile
    Char.isWhitespace).reverse)

/-- Python `str.upper()`, modelled structurally over the character list. -/
def pyUpper (s : String) : String :=
  String.mk (s.data.map Char.toUpper)

/-- `SheetsWriter._normalize_ticker` on a raw string:
`str(raw).strip().upper()`. -/
def normalizeStr (s : String) : String := pyUpper (pyStrip s)

/-- `SheetsWriter._normalize_ticker` (`None` becomes the empty string). -/
def normalizeTicker (raw : Option String) : String :=
  match raw with
  | none => ""
  | some s => normalizeStr s

/-- The fixed promotion-log header row of `_ensure_promotion_log_tab`. -/
def promoLogHeader : List String :=
  ["Timestamp_ET", "Ticker", "Company", "TotalScore", "Recommendation", "Action", "Reason", "RunId"]

/-- `SheetsWriter._ensure_tab`: create-if-absent. -/
def ensureTab (tabs : List String) (name : String) : List String :=
  if name ∈ tabs then tabs else tabs ++ [name]

/-- `SheetsWriter._build_ticker_row_map`: ticker-to-row entries in scan
order, rows indexed from `idx`; blank cells and the literal header token
are skipped. -/
def buildTickerRowMapAux (idx : ℕ) : List (List String) → List (String × ℕ)
  | [] => []
  | row :: rest =>
    let t := normalizeStr (row.headD "")
    if t = "" then buildTickerRowMapAux (idx + 1) rest
    else if t = "TICKER" then buildTickerRowMapAux (idx + 1) rest
    else (t, idx) :: buildTickerRowMapAux (idx + 1) rest

/-- `SheetsWriter._build_ticker_row_map`, rows enumerated from
`block_start`. -/
def buildTickerRowMap (blockStart : ℕ) (rows : List (List String)) : List (String × ℕ) :=
  buildTickerRowMapAux blockStart rows

/-- Lookup in the ticker-to-row map; as in a Python dictionary built by
repeated assignment in scan order, the last entry for a key wins. -/
def rowMapLookup (entries : List (String × ℕ)) (t : String) : Option ℕ :=
  entries.foldl (fun acc e => if e.1 = t then some e.2 else acc) none

/-- `SheetsWriter._find_first_empty_row`: first blank cell of the read
block, breaking off past `blockEnd`. -/
def findFirstEmptyRowAux (blockEnd : ℕ) (idx : ℕ) : List (List String) → Option ℕ
  | [] => none
  | row :: rest =>
    if blockEnd < idx then none
    else if normalizeStr (row.headD "") = "" then some idx
    else findFirstEmptyRowAux blockEnd (idx + 1) rest

/-- `SheetsWriter._find_first_empty_row` over the block read result. -/
def findFirstEmptyRow (blockStart blockEnd : ℕ) (rows : List (List String)) : Option ℕ :=
  findFirstEmptyRowAux blockEnd blockStart rows

/-- `SheetsWriter._build_dashboard_row`. -/
def buildDashboardRow (results : Results) (now : String) : List Cell :=
  let metrics := results.metrics
  let price := pyOrQ results.current_price metrics.price
  let yearHigh := pyOrQ results.year_high metrics.year_high
  let drawdownPct : Option ℚ :=
    match metrics.drawdown_pct with
    | some d => some d
    | none =>
      match price, yearHigh with
      | some p, some yh => if 0 < yh then some ((p - yh) / yh * 100) else none
      | _, _ => none
  let scoreVal := pyOrQ results.score.total results.score.total_score
  let lastUpdated := pyOrStr results.last_updated now
  [cellOfQ price, cellOfQ yearHigh, cellOfQ (drawdownPct.map round2), cellOfQ scoreVal,
   Cell.str (results.recommendation.getD ""), Cell.str lastUpdated]

/-- The writer's resolved total score (`get("total")`, falling back to
`get("total_score")` only when the former is `None`). -/
def resolvedTotal (s : ScoreDict) : Option ℚ :=
  match s.total with
  | some t => some t
  | none => s.total_score

/-- The business-quality gate of `_should_promote` (OR of three signals,
evaluated as the source's if/elif chain). -/
def businessPass (cfg : WriterConfig) (results : Results) : Bool :=
  let metrics := results.metrics
  let fcf := metrics.quality.free_cash_flow
  let roic := pyOrQ metrics.roic metrics.profitability_roic
  let moatOk :=
    match results.score.moat_score with
    | some m => decide (cfg.moat_gate_threshold ≤ m)
    | none => false
  let fcfOk :=
    cfg.min_fcf_positive &&
      (match fcf with
       | some f => decide (0 < f)
       | none => false)
  let roicOk :=
    cfg.roic_gate_above_sector_median && roic.isSome && metrics.roic_above_sector_median
  if moatOk then true else if fcfOk then true else if roicOk then true else false

/-- The resolved risk-flag list (`score.get("risk_flags", []) or []`). -/
def riskFlagsOf (s : ScoreDict) : List String := s.risk_flags.getD []

/-- The leverage value of `_should_promote`'s last rule: the Python
truthiness chain `metrics.get("net_debt_to_ebitda") or
quality.get("net_debt_to_ebitda") or quality.get("debt_to_ebitda")`. -/
def leverageValue (metrics : WMetrics) : Option ℚ :=
  pyOrQ (pyOrQ metrics.net_debt_to_ebitda metrics.quality.net_debt_to_ebitda)
    metrics.quality.debt_to_ebitda

/-- `SheetsWriter._should_promote`: verdict and reason string. -/
def shouldPromote (cfg : WriterConfig) (results : Results) : Bool × String :=
  match resolvedTotal results.score with
  | none => (false, "Total score below " ++ toString cfg.promote_score_threshold)
  | some totalScore =>
    if totalScore < cfg.promote_score_threshold then
      (false, "Total score below " ++ toString cfg.promote_score_threshold)
    else if !businessPass cfg results then
      (false, "Business quality gate failed (no strong moat/FCF/ROIC)")
    else if cfg.require_thesis_not_broken && results.score.thesis_broken then
      (false, "Thesis broken flag true")
    else if cfg.max_risk_flag_count < (riskFlagsOf results.score).length then
      (false, "Risk flags present: " ++ String.intercalate "," (riskFlagsOf results.score))
    else
      match leverageValue results.metrics with
      | some v =>
        if cfg.max_net_debt_to_ebitda < v then (false, "Net debt/EBITDA too high")
        else (true, "Passed: score, business gate, risk gate")
      | none => (true, "Passed: score, business gate, risk gate")

/-- The promotion-log actions. -/
inductive Action where
  | UPDATED
  | NOT_APPENDED_ALLOW_APPEND_FALSE
  | REJECTED
  | FAILED_NO_CAPACITY
  | PROMOTED
  | HIGH_PRIORITY
  deriving DecidableEq, Repr

/-- The literal action string written into the log. -/
def actionStr : Action → String
  | Action.UPDATED => "UPDATED"
  | Action.NOT_APPENDED_ALLOW_APPEND_FALSE => "NOT_APPENDED_ALLOW_APPEND_FALSE"
  | Action.REJECTED => "REJECTED"
  | Action.FAILED_NO_CAPACITY => "FAILED_NO_CAPACITY"
  | Action.PROMOTED => "PROMOTED"
  | Action.HIGH_PRIORITY => "HIGH_PRIORITY"

/-- The log row built by `_log_promotion_event` (the same content is
produced in dry-run and live mode). -/
def logPromotionRow (results : Results) (action : Action) (reason runId now : String) :
    List Cell :=
  [Cell.str now,
   Cell.str (results.ticker.getD ""),
   Cell.str (results.company_name.getD ""),
   cellOfQNull (pyOrQ results.score.total_score results.score.total),
   Cell.str (results.recommendation.getD ""),
   Cell.str (actionStr action),
   Cell.str reason,
   Cell.str runId]

/-- The state effect of `_log_promotion_event`: live mode appends the row,
dry-run leaves the store untouched. -/
def appendLog (st : LedgerState) (row : List Cell) (dryRun : Bool) : LedgerState :=
  if dryRun then st else { st with promoLog := st.promoLog ++ [row] }

/-- The state effect of `_update_dashboard_ai_columns`. -/
def updateDashboardAiColumns (st : LedgerState) (rowIndex : ℕ) (results : Results)
    (now : String) (dryRun : Bool) : LedgerState :=
  if dryRun then st
  else { st with rowsEJ := (rowIndex, buildDashboardRow results now) :: st.rowsEJ }

/-- The state effect of `_append_new_ticker_row` on the block's column A:
the cell at the row's offset becomes the ticker. -/
def setBlockA (blockA : List (List String)) (off : ℕ) (ticker : String) :
    List (List String) :=
  let padded :=
    if blockA.length ≤ off then blockA ++ List.replicate (off + 1 - blockA.length) []
    else blockA
  padded.set off [ticker]

/-- `_append_new_ticker_row`'s state effect (a no-op in dry-run). -/
def appendNewTickerRow (cfg : WriterConfig) (st : LedgerState) (rowIndex : ℕ)
    (ticker : String) (dryRun : Bool) : LedgerState :=
  if dryRun then st
  else { st with blockA := setBlockA st.blockA (rowIndex - cfg.block_start) ticker }

/-- `SheetsWriter.write`: the full reconciliation for one results payload.
Returns the new ledger state, the decision action, and the content of the
promotion-log entry the run emitted (`none` on the update-in-place path).
The wall-clock timestamp and the fresh run id are explicit inputs. -/
def SheetsWriter.write (cfg : WriterConfig) (st : LedgerState) (results : Results)
    (allowAppend dryRun : Bool) (runId : Option String) (now freshId : String) :
    Except String (LedgerState × Action × Option (List Cell)) :=
  if cfg.spreadsheet_id = "" then Except.error "SHEETS_SPREADSHEET_ID is not configured"
  else if cfg.dashboard_tab = "" then Except.error "SHEETS_WORKSHEET_NAME is not configured"
  else if cfg.promo_log_tab = "" then
    Except.error "PROMOTION_LOG_WORKSHEET_NAME is not configured"
  else
    let ticker := normalizeTicker results.ticker
    if ticker = "" then Except.error "Result payload missing ticker"
    else
      let runId' := pyOrStr runId freshId
      let st1 : LedgerState :=
        { st with
          tabs := ensureTab (ensureTab st.tabs cfg.dashboard_tab) cfg.promo_log_tab
          logHeader := some promoLogHeader }
      let rows := st1.blockA
      let tickerMap := buildTickerRowMap cfg.block_start rows
      match rowMapLookup tickerMap ticker with
      | some rowIndex =>
        Except.ok (updateDashboardAiColumns st1 rowIndex results now dryRun,
          Action.UPDATED, none)
      | none =>
        let pr := shouldPromote cfg results
        if !allowAppend then
          let row := logPromotionRow results Action.NOT_APPENDED_ALLOW_APPEND_FALSE
            pr.2 runId' now
          Except.ok (appendLog st1 row dryRun, Action.NOT_APPENDED_ALLOW_APPEND_FALSE, some row)
        else if !pr.1 then
          let row := logPromotionRow results Action.REJECTED pr.2 runId' now
          Except.ok (appendLog st1 row dryRun, Action.REJECTED, some row)
        else
          match findFirstEmptyRow cfg.block_start cfg.block_end rows with
          | none =>
            let row := logPromotionRow results Action.FAILED_NO_CAPACITY
              ("Dashboard block full A" ++ toString cfg.block_start ++ ":A" ++
                toString cfg.block_end) runId' now
            Except.ok (appendLog st1 row dryRun, Action.FAILED_NO_CAPACITY, some row)
          | some emptyRow =>
            let st2 := appendNewTickerRow cfg st1 emptyRow ticker dryRun
            let st3 := updateDashboardAiColumns st2 emptyRow results now dryRun
            let action :=
              match pyOrQ results.score.total results.score.total_score with
              | some t =>
                if cfg.high_priority_threshold ≤ t then Action.HIGH_PRIORITY
                else Action.PROMOTED
              | none => Action.PROMOTED
            let row := logPromotionRow results action pr.2 runId' now
            Except.ok (appendLog st3 row dryRun, action, some row)

/-! ## Concrete fixtures used by theorems and witnesses -/

/-- The §8 worked-example metrics bundle. -/
def exampleMetrics : ScoringMetrics :=
  { profitability := some { net_margin := some 25, roe := some 22, gross_margin := some 55 }
    growth := some { revenue_growth := some 12, earnings_growth := some 18 }
    value := some { pe_r := some 12, pb_r := some (3/2), price_to_sales := some 1 }
    quality := some { debt_to_equity := some (3/10), cash_flow_to_net_income := some (13/10),
                      free_cash_flow := some 1 }
    financial_health := some { current_r := some (11/5), quick_r := some (8/5),
                               interest_coverage := some 12 }
    moat_score := none
    risk_flags := none
    thesis_broken := false }

/-- A metrics record carrying an explicit moat value of 15. -/
def moatFifteenMetrics : ScoringMetrics :=
  { profitability := none, growth := none, value := none, quality := none,
    financial_health := none, moat_score := some 15, risk_flags := none,
    thesis_broken := false }

/-- Fixed writer configuration used by concrete reconciler runs. -/
def cfgA : WriterConfig :=
  { spreadsheet_id := "S", dashboard_tab := "Dashboard", promo_log_tab := "PromoLog",
    block_start := 2, block_end := 5,
    promote_score_threshold := 75, high_priority_threshold := 85,
    moat_gate_threshold := 8, min_fcf_positive := true,
    roic_gate_above_sector_median := true, max_risk_flag_count := 0,
    max_net_debt_to_ebitda := 3, require_thesis_not_broken := true }

/-- A results payload whose explicit net-debt-to-EBITDA is exactly 0 while
the quality-group debt-to-EBITDA fallback is 100; all earlier gate rules
pass. -/
def resZeroDebt : Results :=
  { ticker := some "aapl", company_name := some "Apple", recommendation := some "BUY - x",
    current_price := some 100, year_high := some 125, last_updated := some "T0",
    score := { total := some 90, total_score := some 90, moat_score := some 9,
               thesis_broken := false, risk_flags := some [] },
    metrics := { price := none, year_high := none, drawdown_pct := none, roic := none,
                 roic_above_sector_median := false, net_debt_to_ebitda := some 0,
                 profitability_roic := none,
                 quality := { free_cash_flow := some 5, net_debt_to_ebitda := none,
                              debt_to_ebitda := some 100 } } }

/-- A ledger state whose block already tracks AAPL and whose promotion log
is empty; the promotion-log tab does not exist yet. -/
def stTracked : LedgerState :=
  { tabs := ["Dashboard"], blockA := [["AAPL"], ["MSFT"]], rowsEJ := [],
    promoLog := [], logHeader := none }

/-- A results payload with no total score at all. -/
def resNoTotal : Results :=
  { ticker := some "nflx", company_name := some "N", recommendation := some "",
    current_price := none, year_high := none, last_updated := some "T0",
    score := { total := none, total_score := none, moat_score := some 9,
               thesis_broken := false, risk_flags := some [] },
    metrics := { price := none, year_high := none, drawdown_pct := none, roic := none,
                 roic_above_sector_median := false, net_debt_to_ebitda := none,
                 profitability_roic := none,
                 quality := { free_cash_flow := some 5, net_debt_to_ebitda := none,
                              debt_to_ebitda := none } } }

/-- The ledger state produced by the in-place update run on `stTracked`. -/
def stTrackedAfter : LedgerState :=
  { tabs := ["Dashboard", "PromoLog"], blockA := [["AAPL"], ["MSFT"]],
    rowsEJ := [(2, buildDashboardRow resZeroDebt "NOW")], promoLog := [],
    logHeader := some promoLogHeader }

/-- The ledger state produced by the dry-run update on `stTracked`. -/
def stTrackedDryAfter : LedgerState :=
  { tabs := ["Dashboard", "PromoLog"], blockA := [["AAPL"], ["MSFT"]],
    rowsEJ := [], promoLog := [], logHeader := some promoLogHeader }

/-- A ledger state whose block holds the same ticker AAPL in two rows
(rows 2 and 4 of the block starting at row 2). -/
def stDuplicate : LedgerState :=
  { tabs := ["Dashboard", "PromoLog"], blockA := [["AAPL"], ["MSFT"], ["AAPL"]],
    rowsEJ := [(2, [Cell.str "old2"]), (4, [Cell.str "old4"])], promoLog := [],
    logHeader := some promoLogHeader }

/-! ## Theorems -/

/-- C3 counterexample: with an explicit externally-supplied moat value of
15, the scorer's moat estimate is 15, which is neither clamped to `[0,10]`
nor inside that interval — the explicit branch of
`_estimate_moat_score` rounds but does not clamp. -/
theorem moat_explicit_unclamped_cex :
    moatFifteenMetrics.moat_score = some 15 ∧
    (score moatFifteenMetrics).moat_score = 15 ∧
    ¬ (score moatFifteenMetrics).moat_score ≤ 10 := by
  refine ⟨rfl, ?_, ?_⟩ <;>
    norm_num [score, estimateMoatScore, moatFifteenMetrics, pyRound]

/-- C3 amended: when the input metrics carry an explicit moat value the
result is that value rounded (half to even) with no clamping; only when no
explicit value is present does the result equal
`round((profitability_subscore + quality_subscore)/20)` clamped to
`[0,10]`, and only then is it guaranteed to lie in `[0,10]`. -/
theorem moat_score_amended (m : ScoringMetrics) :
    (∀ e, m.moat_score = some e → (score m).moat_score = pyRound e) ∧
    (m.moat_score = none →
      (score m).moat_score =
        max 0 (min 10 (pyRound
          ((scoreProfitability m.profitability + scoreQuality m.quality) / 20))) ∧
      0 ≤ (score m).moat_score ∧ (score m).moat_score ≤ 10) := by
  constructor
  · intro e he
    simp [score, estimateMoatScore, he]
  · intro hn
    have hs : (score m).moat_score =
        max 0 (min 10 (pyRound
          ((scoreProfitability m.profitability + scoreQuality m.quality) / 20))) := by
      simp [score, estimateMoatScore, hn]
    refine ⟨hs, ?_, ?_⟩
    · rw [hs]; exact le_max_left _ _
    · rw [hs]; exact max_le (by norm_num) (min_le_left _ _)

/-- C3 amended witness at the concrete explicit-value input. -/
theorem moat_score_amended_w :
    moatFifteenMetrics.moat_score = some 15 ∧
    (score moatFifteenMetrics).moat_score = pyRound 15 :=
  ⟨rfl, (moat_score_amended moatFifteenMetrics).1 15 rfl⟩

/-- C5: the worked example (net margin 25, ROE 22, gross margin 55,
revenue growth 12, earnings growth 18, P/E 12, P/B 1.5, P/S 1,
debt/equity 0.3, CF/NI 1.3, positive FCF, current ratio 2.2, quick ratio
1.6, interest coverage 12) scores 100/70/100/100/100 on the five
sub-scores, total 94.0, recommendation tier STRONG BUY. -/
theorem score_worked_example :
    (score exampleMetrics).sub_profitability = 100 ∧
    (score exampleMetrics).sub_growth = 70 ∧
    (score exampleMetrics).sub_value = 100 ∧
    (score exampleMetrics).sub_quality = 100 ∧
    (score exampleMetrics).sub_financial_health = 100 ∧
    (score exampleMetrics).total = 94 ∧
    (score exampleMetrics).decision = "STRONG BUY - Excellent investment opportunity" := by
  refine ⟨?_, ?_, ?_, ?_, ?_, ?_, ?_⟩ <;>
    norm_num [score, scoreProfitability, scoreGrowth, scoreValue, scoreQuality,
      scoreFinancialHealth, exampleMetrics, round2, pyRound, getRecommendation,
      wProfitability, wGrowth, wValue, wQuality, wFinancialHealth]

/-- C6: the trailing CAGR over the newest-first sequence `[121, 100]`
(oldest positive value 100, newest 121, one compounding period) equals
exactly 21; and over any input with fewer than two strictly positive
values the CAGR is 0. -/
theorem cagr_example_and_short_input :
    calculateCagr [121, 100] = 21 ∧
    ∀ values : List ℚ,
      (values.filter (fun v => 0 < v)).length < 2 → calculateCagr values = 0 := by
  constructor
  · have h1 : ([121, 100] : List ℚ).filter (fun v => 0 < v) = [121, 100] := by
      simp [List.filter]
    simp only [calculateCagr, h1]
    norm_num [Real.rpow_one]
  · intro values h
    by_cases hlen : values.length < 2
    · simp [calculateCagr, hlen]
    · simp [calculateCagr, hlen, h]

/-- C6 witness: the degenerate branch at a concrete input. -/
theorem cagr_short_input_w :
    (([] : List ℚ).filter (fun v => 0 < v)).length < 2 ∧ calculateCagr [] = 0 :=
  ⟨by simp, cagr_example_and_short_input.2 [] (by simp)⟩

/-- C7: recommendation tiers are exhaustive and monotonic over the total:
every total yields one of the five fixed tier strings, the bands
`≥80 / [70,80) / [60,70) / [50,60) / <50` map onto them with no gap at the
boundaries, and in particular 79.99 yields the BUY tier. -/
theorem recommendation_tiers_total :
    (∀ t : ℚ,
      (getRecommendation t = "STRONG BUY - Excellent investment opportunity" ∨
       getRecommendation t = "BUY - Good investment with solid fundamentals" ∨
       getRecommendation t = "HOLD - Acceptable investment, monitor closely" ∨
       getRecommendation t = "CAUTIOUS - Weak fundamentals, consider alternatives" ∨
       getRecommendation t = "AVOID - Poor investment metrics") ∧
      (80 ≤ t → getRecommendation t = "STRONG BUY - Excellent investment opportunity") ∧
      (70 ≤ t ∧ t < 80 → getRecommendation t = "BUY - Good investment with solid fundamentals") ∧
      (60 ≤ t ∧ t < 70 → getRecommendation t = "HOLD - Acceptable investment, monitor closely") ∧
      (50 ≤ t ∧ t < 60 →
        getRecommendation t = "CAUTIOUS - Weak fundamentals, consider alternatives") ∧
      (t < 50 → getRecommendation t = "AVOID - Poor investment metrics")) ∧
    getRecommendation (7999/100) = "BUY - Good investment with solid fundamentals" := by
  constructor
  · intro t
    unfold getRecommendation
    split_ifs with h1 h2 h3 h4 <;>
      refine ⟨by simp, fun h => ?_, fun h => ?_, fun h => ?_, fun h => ?_, fun h => ?_⟩ <;>
        first
          | rfl
          | (exfalso; obtain ⟨h5, h6⟩ := h; linarith)
          | (exfalso; linarith)
  · norm_num [getRecommendation]

/-- C7 witness: the boundary instances 80 and 79.99. -/
theorem recommendation_tiers_total_w :
    ((80 : ℚ) ≤ 80 ∧
      getRecommendation 80 = "STRONG BUY - Excellent investment opportunity") ∧
    ((70 : ℚ) ≤ 7999/100 ∧ (7999/100 : ℚ) < 80 ∧
      getRecommendation (7999/100) = "BUY - Good investment with solid fundamentals") :=
  ⟨⟨le_refl 80, (recommendation_tiers_total.1 80).2.1 (le_refl 80)⟩,
   ⟨by norm_num, by norm_num,
    (recommendation_tiers_total.1 (7999/100)).2.2.1 ⟨by norm_num, by norm_num⟩⟩⟩

/-! ### Helper lemmas on the state effects -/

@[simp]
theorem appendLog_blockA (st : LedgerState) (row : List Cell) (d : Bool) :
    (appendLog st row d).blockA = st.blockA := by
  unfold appendLog; split <;> rfl

@[simp]
theorem appendLog_rowsEJ (st : LedgerState) (row : List Cell) (d : Bool) :
    (appendLog st row d).rowsEJ = st.rowsEJ := by
  unfold appendLog; split <;> rfl

@[simp]
theorem appendLog_tabs (st : LedgerState) (row : List Cell) (d : Bool) :
    (appendLog st row d).tabs = st.tabs := by
  unfold appendLog; split <;> rfl

@[simp]
theorem appendLog_logHeader (st : LedgerState) (row : List Cell) (d : Bool) :
    (appendLog st row d).logHeader = st.logHeader := by
  unfold appendLog; split <;> rfl

theorem appendLog_promoLog (st : LedgerState) (row : List Cell) (d : Bool) :
    (appendLog st row d).promoLog = if d then st.promoLog else st.promoLog ++ [row] := by
  unfold appendLog; split <;> simp_all

@[simp]
theorem updateDashboardAiColumns_blockA (st : LedgerState) (i : ℕ) (r : Results)
    (now : String) (d : Bool) :
    (updateDashboardAiColumns st i r now d).blockA = st.blockA := by
  unfold updateDashboardAiColumns; split <;> rfl

@[simp]
theorem updateDashboardAiColumns_promoLog (st : LedgerState) (i : ℕ) (r : Results)
    (now : String) (d : Bool) :
    (updateDashboardAiColumns st i r now d).promoLog = st.promoLog := by
  unfold updateDashboardAiColumns; split <;> rfl

@[simp]
theorem updateDashboardAiColumns_tabs (st : LedgerState) (i : ℕ) (r : Results)
    (now : String) (d : Bool) :
    (updateDashboardAiColumns st i r now d).tabs = st.tabs := by
  unfold updateDashboardAiColumns; split <;> rfl

@[simp]
theorem updateDashboardAiColumns_logHeader (st : LedgerState) (i : ℕ) (r : Results)
    (now : String) (d : Bool) :
    (updateDashboardAiColumns st i r now d).logHeader = st.logHeader := by
  unfold updateDashboardAiColumns; split <;> rfl

@[simp]
theorem appendNewTickerRow_rowsEJ (cfg : WriterConfig) (st : LedgerState) (i : ℕ)
    (t : String) (d : Bool) :
    (appendNewTickerRow cfg st i t d).rowsEJ = st.rowsEJ := by
  unfold appendNewTickerRow; split <;> rfl

@[simp]
theorem appendNewTickerRow_promoLog (cfg : WriterConfig) (st : LedgerState) (i : ℕ)
    (t : String) (d : Bool) :
    (appendNewTickerRow cfg st i t d).promoLog = st.promoLog := by
  unfold appendNewTickerRow; split <;> rfl

@[simp]
theorem appendNewTickerRow_tabs (cfg : WriterConfig) (st : LedgerState) (i : ℕ)
    (t : String) (d : Bool) :
    (appendNewTickerRow cfg st i t d).tabs = st.tabs := by
  unfold appendNewTickerRow; split <;> rfl

@[simp]
theorem appendNewTickerRow_logHeader (cfg : WriterConfig) (st : LedgerState) (i : ℕ)
    (t : String) (d : Bool) :
    (appendNewTickerRow cfg st i t d).logHeader = st.logHeader := by
  unfold appendNewTickerRow; split <;> rfl

theorem mem_ensureTab_self (tabs : List String) (name : String) :
    name ∈ ensureTab tabs name := by
  unfold ensureTab; split
  · assumption
  · simp

theorem ensureTab_eq_of_mem {tabs : List String} {name : String} (h : name ∈ tabs) :
    ensureTab tabs name = tabs := by
  unfold ensureTab; simp [h]

theorem mem_ensureTab_of_mem {tabs : List String} {a : String} (b : String) (h : a ∈ tabs) :
    a ∈ ensureTab tabs b := by
  unfold ensureTab; split
  · exact h
  · exact List.mem_append_left _ h

/-! ### Claim theorems on the reconciler -/

/-- C9: when the score record carries neither a total nor a total_score,
the promotion gate fails with exactly the reason string naming the first
rule (independently of every later-gate field, since the verdict is fixed
for all such payloads), and a previously-untracked ticker is never
appended: the block column A and the dashboard rows are unchanged and the
outcome is NOT_APPENDED_ALLOW_APPEND_FALSE or REJECTED. -/
theorem missing_total_short_circuits (cfg : WriterConfig) (r : Results)
    (h1 : r.score.total = none) (h2 : r.score.total_score = none) :
    shouldPromote cfg r =
      (false, "Total score below " ++ toString cfg.promote_score_threshold) ∧
    ∀ st allowAppend dryRun runId now freshId st' act em,
      SheetsWriter.write cfg st r allowAppend dryRun runId now freshId =
        Except.ok (st', act, em) →
      rowMapLookup (buildTickerRowMap cfg.block_start st.blockA) (normalizeTicker r.ticker) =
        none →
      st'.blockA = st.blockA ∧ st'.rowsEJ = st.rowsEJ ∧
      (act = Action.NOT_APPENDED_ALLOW_APPEND_FALSE ∨ act = Action.REJECTED) := by
  have hsp : shouldPromote cfg r =
      (false, "Total score below " ++ toString cfg.promote_score_threshold) := by
    simp [shouldPromote, resolvedTotal, h1, h2]
  refine ⟨hsp, ?_⟩
  intro st allowAppend dryRun runId now freshId st' act em hw hlook
  simp only [SheetsWriter.write, hlook, hsp, Bool.not_false, if_true] at hw
  split_ifs at hw
  all_goals
    injection hw with hpair
    injection hpair with hst hrest
    injection hrest with hact hem
    subst hst
    subst hact
    simp

/-- C9 witness at a concrete no-total payload, untracked ticker. -/
theorem missing_total_short_circuits_w :
    resNoTotal.score.total = none ∧ resNoTotal.score.total_score = none ∧
    shouldPromote cfgA resNoTotal = (false, "Total score below 75") :=
  ⟨rfl, rfl, by
    have h := (missing_total_short_circuits cfgA resNoTotal rfl rfl).1
    simpa using h⟩

/-- C4 counterexample: a payload whose explicit top-level
net-debt-to-EBITDA metric is present and exactly 0 (below the ceiling 3),
yet the gate rejects with the leverage reason, because the Python `or`
chain treats 0 as falsy and falls through to the quality-group
debt-to-EBITDA fallback of 100. -/
theorem leverage_zero_falls_through_cex :
    resZeroDebt.metrics.net_debt_to_ebitda = some 0 ∧
    (0 : ℚ) ≤ cfgA.max_net_debt_to_ebitda ∧
    leverageValue resZeroDebt.metrics = some 100 ∧
    shouldPromote cfgA resZeroDebt = (false, "Net debt/EBITDA too high") := by
  refine ⟨rfl, by norm_num [cfgA], by norm_num [leverageValue, pyOrQ, resZeroDebt], ?_⟩
  norm_num [shouldPromote, resolvedTotal, businessPass, riskFlagsOf, leverageValue,
    pyOrQ, resZeroDebt, cfgA]

/-- C4 amended: the leverage check compares the first truthy (present and
nonzero) of the explicit metric, the quality-group net-debt-to-EBITDA and
the quality-group debt-to-EBITDA — an explicit value of exactly 0 falls
through to the fallbacks — and, when all earlier gate rules pass, the
ticker is rejected exactly when that chain yields a value above the
ceiling. -/
theorem leverage_gate_amended (cfg : WriterConfig) (r : Results)
    (htot : ∃ t, resolvedTotal r.score = some t ∧ cfg.promote_score_threshold ≤ t)
    (hbiz : businessPass cfg r = true)
    (hth : (cfg.require_thesis_not_broken && r.score.thesis_broken) = false)
    (hrisk : (riskFlagsOf r.score).length ≤ cfg.max_risk_flag_count) :
    (shouldPromote cfg r =
      match leverageValue r.metrics with
      | some v =>
        if cfg.max_net_debt_to_ebitda < v then (false, "Net debt/EBITDA too high")
        else (true, "Passed: score, business gate, risk gate")
      | none => (true, "Passed: score, business gate, risk gate")) ∧
    (∀ q, r.metrics.net_debt_to_ebitda = some q → q ≠ 0 →
      leverageValue r.metrics = some q) := by
  constructor
  · obtain ⟨t, ht, hge⟩ := htot
    simp only [shouldPromote, ht]
    rw [if_neg (not_lt.mpr hge), hbiz, hth]
    simp [not_lt.mpr hrisk]
  · intro q hq hne
    simp [leverageValue, pyOrQ, hq, hne]

/-- C4 amended witness: a nonzero explicit metric is selected and, with
all earlier rules passing, drives the verdict. -/
theorem leverage_gate_amended_w :
    leverageValue { resZeroDebt.metrics with net_debt_to_ebitda := some 7 } = some 7 ∧
    shouldPromote cfgA
      { resZeroDebt with metrics := { resZeroDebt.metrics with net_debt_to_ebitda := some 7 } } =
      (false, "Net debt/EBITDA too high") := by
  have h := leverage_gate_amended cfgA
    { resZeroDebt with metrics := { resZeroDebt.metrics with net_debt_to_ebitda := some 7 } }
    ⟨90, rfl, by norm_num [cfgA]⟩ (by norm_num [businessPass, resZeroDebt, cfgA, pyOrQ])
    (by norm_num [resZeroDebt, cfgA]) (by norm_num [riskFlagsOf, resZeroDebt, cfgA])
  have hsel : leverageValue
      { resZeroDebt.metrics with net_debt_to_ebitda := some 7 } = some 7 :=
    h.2 7 rfl (by norm_num)
  refine ⟨hsel, ?_⟩
  rw [h.1, hsel]
  norm_num [cfgA]

/-- C1 counterexample: an evaluation attempt that reaches the
reconciliation step for a ticker already present in the block ends in the
in-place update and emits no promotion-log entry at all — not exactly
one. -/
theorem write_updated_no_log_entry_cex :
    (SheetsWriter.write cfgA stTracked resZeroDebt true false (some "r1") "NOW" "uuid").map
      (fun x => (x.2.1, x.2.2, x.1.promoLog)) =
      Except.ok (Action.UPDATED, none, ([] : List (List Cell))) ∧
    stTracked.promoLog = [] :=
  ⟨rfl, rfl⟩

/-- C1 amended: every evaluation attempt that reaches the reconciliation
step emits exactly one promotion-log entry — except the update-in-place
path for an already-tracked ticker, which emits none. -/
theorem write_one_log_entry_unless_updated (cfg : WriterConfig) (st : LedgerState)
    (r : Results) (allowAppend dryRun : Bool) (runId : Option String)
    (now freshId : String) (st' : LedgerState) (act : Action) (em : Option (List Cell))
    (h : SheetsWriter.write cfg st r allowAppend dryRun runId now freshId =
      Except.ok (st', act, em)) :
    (act = Action.UPDATED ∧ em = none ∧ st'.promoLog = st.promoLog) ∨
    (act ≠ Action.UPDATED ∧ ∃ row, em = some row ∧
      st'.promoLog = if dryRun then st.promoLog else st.promoLog ++ [row]) := by
  simp only [SheetsWriter.write] at h
  repeat' split at h
  all_goals try (injection h; done)
  all_goals
    injection h with hpair
    injection hpair with hst hrest
    injection hrest with hact hem
    subst hst
    subst hact
    subst hem
  all_goals try (exact Or.inl ⟨rfl, rfl, by simp⟩)
  all_goals
    refine Or.inr ⟨by decide, _, rfl, ?_⟩
    simp [appendLog_promoLog]

/-- C1 amended witness: the update-in-place run at the concrete tracked
input takes the no-entry branch. -/
theorem write_one_log_entry_unless_updated_w :
    (Action.UPDATED = Action.UPDATED ∧ (none : Option (List Cell)) = none ∧
      stTrackedAfter.promoLog = stTracked.promoLog) ∨
    (Action.UPDATED ≠ Action.UPDATED ∧ ∃ row, (none : Option (List Cell)) = some row ∧
      stTrackedAfter.promoLog =
        if false then stTracked.promoLog else stTracked.promoLog ++ [row]) :=
  write_one_log_entry_unless_updated cfgA stTracked resZeroDebt true false (some "r1")
    "NOW" "uuid" stTrackedAfter Action.UPDATED none rfl

/-- C2 counterexample: with `dry_run = true` the reconciler still mutates
the ledger store — it creates the missing promotion-log tab and writes the
log header row — contradicting "no tab creation, no header write". -/
theorem dry_run_creates_tab_cex :
    (SheetsWriter.write cfgA stTracked resZeroDebt false true none "NOW" "uuid").map
      (fun x => (x.1.tabs, x.1.logHeader)) =
      Except.ok (["Dashboard", "PromoLog"], some promoLogHeader) ∧
    stTracked.tabs = ["Dashboard"] ∧ stTracked.logHeader = none :=
  ⟨rfl, rfl, rfl⟩

/-- C2 amended: for a fixed results payload and ledger snapshot, dry-run
and live runs yield the same decision outcome and the same promotion-log
entry content, and the dry run leaves the block column A, the dashboard
rows and the promotion log untouched; the tab-ensure and log-header
writes, however, are not suppressed by dry-run. -/
theorem dry_run_decision_log_equiv (cfg : WriterConfig) (st : LedgerState) (r : Results)
    (allowAppend : Bool) (runId : Option String) (now freshId : String) :
    (SheetsWriter.write cfg st r allowAppend true runId now freshId).map
      (fun x => (x.2.1, x.2.2)) =
    (SheetsWriter.write cfg st r allowAppend false runId now freshId).map
      (fun x => (x.2.1, x.2.2)) ∧
    ∀ st' act em,
      SheetsWriter.write cfg st r allowAppend true runId now freshId =
        Except.ok (st', act, em) →
      st'.blockA = st.blockA ∧ st'.rowsEJ = st.rowsEJ ∧ st'.promoLog = st.promoLog := by
  constructor
  · simp only [SheetsWriter.write]
    repeat' split
    all_goals rfl
  · intro st' act em h
    simp only [SheetsWriter.write] at h
    repeat' split at h
    all_goals try (injection h; done)
    all_goals
      injection h with hpair
      injection hpair with hst hrest
      subst hst
      simp [appendLog, updateDashboardAiColumns, appendNewTickerRow]

/-- C2 amended witness at the concrete tracked input. -/
theorem dry_run_decision_log_equiv_w :
    stTrackedDryAfter.blockA = stTracked.blockA ∧
    stTrackedDryAfter.rowsEJ = stTracked.rowsEJ ∧
    stTrackedDryAfter.promoLog = stTracked.promoLog :=
  (dry_run_decision_log_equiv cfgA stTracked resZeroDebt false none "NOW" "uuid").2
    stTrackedDryAfter Action.UPDATED none rfl

/-- C8: for a ticker already present in the ledger block and a fixed
results payload (fixed timestamp and run id = immediate succession),
calling the reconciler twice in a row takes the update-in-place path both
times, produces the same final row content for the ticker's row after
each call, and emits no promotion-log entry on either call. -/
theorem write_idempotent_for_tracked (cfg : WriterConfig) (st : LedgerState) (r : Results)
    (allowAppend dryRun : Bool) (runId : Option String) (now freshId : String) (i : ℕ)
    (hc1 : cfg.spreadsheet_id ≠ "") (hc2 : cfg.dashboard_tab ≠ "")
    (hc3 : cfg.promo_log_tab ≠ "") (ht : normalizeTicker r.ticker ≠ "")
    (hrow : rowMapLookup (buildTickerRowMap cfg.block_start st.blockA)
      (normalizeTicker r.ticker) = some i) :
    ∃ st1 st2,
      SheetsWriter.write cfg st r allowAppend dryRun runId now freshId =
        Except.ok (st1, Action.UPDATED, none) ∧
      SheetsWriter.write cfg st1 r allowAppend dryRun runId now freshId =
        Except.ok (st2, Action.UPDATED, none) ∧
      getRowEJ st1 i = getRowEJ st2 i ∧
      st1.promoLog = st.promoLog ∧ st2.promoLog = st.promoLog := by
  have hd : cfg.dashboard_tab ∈
      ensureTab (ensureTab st.tabs cfg.dashboard_tab) cfg.promo_log_tab :=
    mem_ensureTab_of_mem _ (mem_ensureTab_self _ _)
  have hp : cfg.promo_log_tab ∈
      ensureTab (ensureTab st.tabs cfg.dashboard_tab) cfg.promo_log_tab :=
    mem_ensureTab_self _ _
  set stE : LedgerState := { st with tabs := ensureTab (ensureTab st.tabs cfg.dashboard_tab) cfg.promo_log_tab, logHeader := some promoLogHeader } with hstE
  set st1 := updateDashboardAiColumns stE i r now dryRun with hst1
  set st2 := updateDashboardAiColumns st1 i r now dryRun with hst2
  have hblock1 : st1.blockA = st.blockA := by
    rw [hst1, updateDashboardAiColumns_blockA]
  have htabs1 : st1.tabs = ensureTab (ensureTab st.tabs cfg.dashboard_tab) cfg.promo_log_tab := by
    rw [hst1, updateDashboardAiColumns_tabs]
  have hlog1 : st1.logHeader = some promoLogHeader := by
    rw [hst1, updateDashboardAiColumns_logHeader]
  have hw1 : SheetsWriter.write cfg st r allowAppend dryRun runId now freshId =
      Except.ok (st1, Action.UPDATED, none) := by
    simp only [SheetsWriter.write, if_neg hc1, if_neg hc2, if_neg hc3, if_neg ht, hrow]
  have htabsE : ensureTab (ensureTab st1.tabs cfg.dashboard_tab) cfg.promo_log_tab = st1.tabs := by
    rw [htabs1, ensureTab_eq_of_mem hd, ensureTab_eq_of_mem hp]
  have hw2 : SheetsWriter.write cfg st1 r allowAppend dryRun runId now freshId =
      Except.ok (st2, Action.UPDATED, none) := by
    simp only [SheetsWriter.write, if_neg hc1, if_neg hc2, if_neg hc3, if_neg ht,
      hblock1, hrow]
    rw [htabsE, ← hlog1, ← hblock1]
  have hEJ : getRowEJ st1 i = getRowEJ st2 i := by
    by_cases hdry : dryRun
    · rw [hst2, updateDashboardAiColumns, if_pos hdry]
    · rw [hst2, updateDashboardAiColumns, if_neg hdry, hst1,
        updateDashboardAiColumns, if_neg hdry]
      simp [getRowEJ, List.find?]
  refine ⟨st1, st2, hw1, hw2, hEJ, ?_, ?_⟩
  · rw [hst1, updateDashboardAiColumns_promoLog, hstE]
  · rw [hst2, updateDashboardAiColumns_promoLog, hst1,
      updateDashboardAiColumns_promoLog, hstE]

/-- C8 witness at the concrete tracked input. -/
theorem write_idempotent_for_tracked_w :
    ∃ st1 st2,
      SheetsWriter.write cfgA stTracked resZeroDebt true false (some "r1") "NOW" "uuid" =
        Except.ok (st1, Action.UPDATED, none) ∧
      SheetsWriter.write cfgA st1 resZeroDebt true false (some "r1") "NOW" "uuid" =
        Except.ok (st2, Action.UPDATED, none) ∧
      getRowEJ st1 2 = getRowEJ st2 2 ∧
      st1.promoLog = stTracked.promoLog ∧ st2.promoLog = stTracked.promoLog :=
  write_idempotent_for_tracked cfgA stTracked resZeroDebt true false (some "r1")
    "NOW" "uuid" 2 (by decide) (by decide) (by decide) (by decide) (by decide)

/-- Every entry of the ticker-row map comes from a matching row of the
scanned block, at the scan index. -/
theorem mem_buildTickerRowMapAux (e : String × ℕ) :
    ∀ (rows : List (List String)) (n : ℕ), e ∈ buildTickerRowMapAux n rows →
      ∃ k row, rows.get? k = some row ∧ normalizeStr (row.headD "") = e.1 ∧ e.2 = n + k := by
  intro rows
  induction rows with
  | nil => intro n h; simp [buildTickerRowMapAux] at h
  | cons row rest ih =>
    intro n h
    simp only [buildTickerRowMapAux] at h
    split_ifs at h with h1 h2
    · obtain ⟨k, row', hk, hnorm, he⟩ := ih (n + 1) h
      exact ⟨k + 1, row', by simpa using hk, hnorm, by omega⟩
    · obtain ⟨k, row', hk, hnorm, he⟩ := ih (n + 1) h
      exact ⟨k + 1, row', by simpa using hk, hnorm, by omega⟩
    · rcases List.mem_cons.mp h with he | htail
      · subst he
        exact ⟨0, row, rfl, rfl, rfl⟩
      · obtain ⟨k, row', hk, hnorm, he⟩ := ih (n + 1) htail
        exact ⟨k + 1, row', by simpa using hk, hnorm, by omega⟩

/-- Folding the dictionary assignments over entries none of which carry
the key leaves the accumulator unchanged. -/
theorem foldl_assign_no_match (t : String) :
    ∀ (es : List (String × ℕ)) (acc : Option ℕ), (∀ e ∈ es, e.1 ≠ t) →
      es.foldl (fun acc e => if e.1 = t then some e.2 else acc) acc = acc := by
  intro es
  induction es with
  | nil => intro acc _; rfl
  | cons e es ih =>
    intro acc h
    simp only [List.foldl_cons]
    rw [if_neg (h e (List.mem_cons_self e es))]
    exact ih acc fun x hx => h x (List.mem_cons_of_mem e hx)

/-- The dictionary built by the block scan sends a duplicated ticker to
its last (highest) matching row index. -/
theorem rowMapLookup_last_match (t : String) (htne : t ≠ "") (hth : t ≠ "TICKER") :
    ∀ (rows : List (List String)) (n j : ℕ) (row : List String) (acc : Option ℕ),
      rows.get? j = some row → normalizeStr (row.headD "") = t →
      (∀ k row', rows.get? k = some row' → normalizeStr (row'.headD "") = t → k ≤ j) →
      (buildTickerRowMapAux n rows).foldl
        (fun acc e => if e.1 = t then some e.2 else acc) acc = some (n + j) := by
  intro rows
  induction rows with
  | nil => intro n j row acc hj _ _; simp at hj
  | cons r rest ih =>
    intro n j row acc hj hnorm hlast
    cases j with
    | zero =>
      have hr : r = row := by simpa using hj
      subst hr
      have hnomatch : ∀ e ∈ buildTickerRowMapAux (n + 1) rest, e.1 ≠ t := by
        intro e he heq
        obtain ⟨k, row', hk, hnorm', -⟩ := mem_buildTickerRowMapAux e rest (n + 1) he
        have hk2 := hlast (k + 1) row' (by simpa using hk) (by rw [hnorm', heq])
        omega
      simp only [buildTickerRowMapAux, hnorm]
      rw [if_neg htne, if_neg hth]
      have hstep : (if (t, n).1 = t then some (t, n).2 else acc) = some n := by simp
      rw [List.foldl_cons, hstep, foldl_assign_no_match t _ _ hnomatch]
      rfl
    | succ j' =>
      have hj' : rest.get? j' = some row := by simpa using hj
      have hlast' : ∀ k row', rest.get? k = some row' →
          normalizeStr (row'.headD "") = t → k ≤ j' := by
        intro k row' hk hn
        have := hlast (k + 1) row' (by simpa using hk) hn
        omega
      have hgoal : ∀ acc', (buildTickerRowMapAux (n + 1) rest).foldl
          (fun acc e => if e.1 = t then some e.2 else acc) acc' = some (n + 1 + j') :=
        fun acc' => ih (n + 1) j' row acc' hj' hnorm hlast'
      have harith : n + 1 + j' = n + (j' + 1) := by omega
      simp only [buildTickerRowMapAux]
      split_ifs with h1 h2
      · rw [hgoal, harith]
      · rw [hgoal, harith]
      · rw [List.foldl_cons, hgoal, harith]

/-- C10: when the same normalized ticker occupies more than one row of the
block, the ticker-to-row map retains the highest (last-scanned) row index,
and the in-place update path writes the dashboard columns only to that
row, leaving the block column A and every other row — in particular every
earlier duplicate row — unchanged. -/
theorem duplicate_ticker_last_row_wins (cfg : WriterConfig) (st : LedgerState) (r : Results)
    (allowAppend dryRun : Bool) (runId : Option String) (now freshId : String)
    (j : ℕ) (row : List String)
    (hc1 : cfg.spreadsheet_id ≠ "") (hc2 : cfg.dashboard_tab ≠ "")
    (hc3 : cfg.promo_log_tab ≠ "") (ht : normalizeTicker r.ticker ≠ "")
    (hth : normalizeTicker r.ticker ≠ "TICKER")
    (hj : st.blockA.get? j = some row)
    (hjt : normalizeStr (row.headD "") = normalizeTicker r.ticker)
    (hlast : ∀ k row', st.blockA.get? k = some row' →
      normalizeStr (row'.headD "") = normalizeTicker r.ticker → k ≤ j) :
    rowMapLookup (buildTickerRowMap cfg.block_start st.blockA) (normalizeTicker r.ticker) =
      some (cfg.block_start + j) ∧
    ∀ st' act em,
      SheetsWriter.write cfg st r allowAppend dryRun runId now freshId =
        Except.ok (st', act, em) →
      act = Action.UPDATED ∧ st'.blockA = st.blockA ∧
      ∀ i, i ≠ cfg.block_start + j → getRowEJ st' i = getRowEJ st i := by
  have hlook : rowMapLookup (buildTickerRowMap cfg.block_start st.blockA)
      (normalizeTicker r.ticker) = some (cfg.block_start + j) :=
    rowMapLookup_last_match _ ht hth st.blockA cfg.block_start j row none hj hjt hlast
  refine ⟨hlook, ?_⟩
  intro st' act em h
  simp only [SheetsWriter.write, if_neg hc1, if_neg hc2, if_neg hc3, if_neg ht, hlook] at h
  injection h with hpair
  injection hpair with hst hrest
  injection hrest with hact hem
  subst hst
  refine ⟨hact.symm, by simp, ?_⟩
  intro i hi
  by_cases hdry : dryRun
  · rw [updateDashboardAiColumns, if_pos hdry]
    rfl
  · rw [updateDashboardAiColumns, if_neg hdry]
    simp only [getRowEJ]
    rw [List.find?_cons_of_neg _ (by simp [beq_iff_eq]; omega)]

/-- C10 witness: a block with AAPL in its first and third rows maps AAPL
to the third row (index 4), the update targets only that row, and the
earlier duplicate row keeps its content. -/
theorem duplicate_ticker_last_row_wins_w :
    rowMapLookup (buildTickerRowMap cfgA.block_start stDuplicate.blockA)
      (normalizeTicker resZeroDebt.ticker) = some (cfgA.block_start + 2) ∧
    ∀ st' act em,
      SheetsWriter.write cfgA stDuplicate resZeroDebt true false (some "r1") "NOW" "uuid" =
        Except.ok (st', act, em) →
      act = Action.UPDATED ∧ st'.blockA = stDuplicate.blockA ∧
      ∀ i, i ≠ cfgA.block_start + 2 → getRowEJ st' i = getRowEJ stDuplicate i :=
  duplicate_ticker_last_row_wins cfgA stDuplicate resZeroDebt true false (some "r1")
    "NOW" "uuid" 2 ["AAPL"] (by decide) (by decide) (by decide) (by decide) (by decide)
    (by decide) (by decide)
    (by
      intro k row' hk _
      by_contra hgt
      push_neg at hgt
      rw [List.get?_eq_none.mpr (by simp [stDuplicate]; omega)] at hk
      exact Option.noConfusion hk)

end InvestorAgent
